import Mathlib

/-!
Shallow embedding of the terminal dashboard's view/navigation state machine
(translated from the repository's Go source; the networked variant in
src/unnamed/part_002 is embedded as the `LifeTui` namespace, and the food
branch of the save routine of the src/main.go variant as `LifeTuiMain`).

Conventions of the embedding:
- Go `int` fields (cursor, focusIndex, editIndex, subCycleChoice, amounts)
  become `Int`.
- Go `float64` prices become `Rat`; no claim depends on float rounding.
- `strconv.Atoi` / `strconv.ParseFloat` with a discarded error are modelled
  by plain decimal parsers returning `Option` (failure yields the Go zero
  value at the call sites, matching the discarded-error pattern).  Exotic
  float syntax (exponents, hex, Inf) and Atoi range clamping are omitted:
  no claim distinguishes them.
- The bubbles `textinput` library is external; only what the state machine
  observes is modelled: each input is its text value, printable keys append
  to the focused input, backspace deletes, all other keys leave the text
  unchanged (caret position is not modelled).
- Go slice indexing that would panic out of range is modelled with `getD` /
  `List.set` (a no-op out of range); those situations are unreachable in
  the reachable states the claims quantify over.
- `tea.Cmd` values become the `Cmd` inductive; focus/blink command batches
  that dispatch no background work are collapsed into `Cmd.ui`.
-/

namespace LifeTui

/-- Application states, mirroring the `sessionState` constants. -/
inductive SessionState where
  | menu
  | food
  | foodRecipe
  | foodBuy
  | processingBuy
  | subs
  | study
  | scrapingCanvas
  | addFood
  | addSub
deriving DecidableEq, Repr

/-- FoodItem struct (CartQty carries the json dash tag: never fetched). -/
structure FoodItem where
  name : String
  price : Rat
  amount : Int
  renewThreshold : Int
  cartQty : Int
deriving DecidableEq, Repr

/-- SubItem struct. -/
structure SubItem where
  name : String
  price : Rat
  dueDate : String
  cycle : String
deriving DecidableEq, Repr

/-- StudyItem struct. -/
structure StudyItem where
  name : String
  dueDate : String
deriving DecidableEq, Repr

/-- The decoded content blob of a category response: either a well-formed
items list of one of the three shapes, or JSON that fails to decode into
the target slice (in which case Go leaves the collection untouched). -/
inductive Content where
  | food (items : List FoodItem)
  | subs (items : List SubItem)
  | study (items : List StudyItem)
  | malformed
deriving DecidableEq, Repr

/-- CategoryResponse struct. -/
structure CategoryResponse where
  id : String
  userId : String
  name : String
  content : Content
deriving DecidableEq, Repr

/-- Keys the Update switch distinguishes; `char` covers every other rune. -/
inductive Key where
  | ctrlC
  | q
  | esc
  | backspace
  | up
  | k
  | down
  | j
  | a
  | e
  | d
  | s
  | left
  | right
  | plus
  | minus
  | space
  | r
  | c
  | enter
  | tab
  | shiftTab
  | char (ch : Char)
deriving DecidableEq, Repr

/-- Payload of a category sync command. -/
inductive SyncPayload where
  | food (items : List FoodItem)
  | subs (items : List SubItem)
deriving DecidableEq, Repr

/-- Commands returned by Update.  `ui` stands for the focus/blur/blink
command batches of the textinput library, which dispatch no background
task. -/
inductive Cmd where
  | none
  | quit
  | fetchCategories (token : String)
  | syncCategory (token name catId : String) (items : SyncPayload)
  | generateRecipe (ingredients : List String)
  | processBuy
  | scrapeCanvas (token : String)
  | ui
deriving DecidableEq, Repr

/-- Messages entering Update: the async results plus key events. -/
inductive Msg where
  | dataFetched (cats : List CategoryResponse)
  | syncSuccess
  | recipeGenerated (text : String)
  | buyComplete
  | canvasScraped (items : List StudyItem)
  | err (e : String)
  | key (kv : Key)
deriving DecidableEq, Repr

/-- True exactly on the remote-fetch result message. -/
def Msg.isFetch : Msg → Bool
  | .dataFetched _ => true
  | _ => false

/-- The model struct of the networked variant. -/
structure Model where
  state : SessionState
  cursor : Int
  inputs : List String
  focusIndex : Int
  editIndex : Int
  token : String
  statusMsg : String
  catIDs : List (String × String)
  subCycleChoices : List String
  subCycleChoice : Int
  menuChoices : List String
  foodItems : List FoodItem
  buyChoices : List String
  subItems : List SubItem
  studyItems : List StudyItem
  generatedRecipe : String
  isGenerating : Bool
deriving DecidableEq, Repr

/-- Go map read with the empty string as the zero value for a missing key. -/
def lookupID : List (String × String) → String → String
  | [], _ => ""
  | (key, v) :: rest, name => if key = name then v else lookupID rest name

/-- String constants used by the model (emoji decorations dropped; only the
two sync literals are ever compared against, and those are exact). -/
def menuFoodLabel : String := "Food (Tracking, Recipes and Shopping)"

def menuSubsLabel : String := "Subscriptions (Payments and Dates)"

def menuStudyLabel : String := "Academics (Scraped Assignments)"

def buyDeliveryLabel : String := "Delivery (+$3.00)"

def buyPickUpLabel : String := "Pick Up (Free)"

def orderPlacedMsg : String := "Order placed! Stock updated in database"

def canvasDoneMsg : String := "Canvas sync complete!"

def savedMsg : String := "Saved securely to database"

def dataLoadedMsg : String := "Data loaded successfully."

def connectingRecipeMsg : String := "Connecting to API and generating recipe..."

def autoRenewMsg (name : String) : String :=
  "Auto-renew triggered! +3 " ++ name ++ " bought"

/-- initialModel. -/
def initialModel (token : String) : Model :=
  { state := .menu
    cursor := 0
    inputs := []
    focusIndex := 0
    editIndex := -1
    token := token
    statusMsg := "Fetching data..."
    catIDs := []
    subCycleChoices := ["Monthly", "3 Months", "Yearly"]
    subCycleChoice := 0
    menuChoices := [menuFoodLabel, menuSubsLabel, menuStudyLabel]
    buyChoices := [buyDeliveryLabel, buyPickUpLabel]
    foodItems := []
    subItems := []
    studyItems := []
    generatedRecipe := ""
    isGenerating := false }

/-- All characters are decimal digits. -/
def allDigits (l : List Char) : Bool := l.all Char.isDigit

/-- Numeric value of a digit string. -/
def digitsVal (l : List Char) : Nat :=
  l.foldl (fun acc ch => acc * 10 + (ch.toNat - 48)) 0

/-- Model of strconv.Atoi: optional sign then at least one digit. -/
def parseIntOpt (str : String) : Option Int :=
  match str.data with
  | '+' :: rest =>
      if rest ≠ [] ∧ allDigits rest then some (digitsVal rest : Int) else none
  | '-' :: rest =>
      if rest ≠ [] ∧ allDigits rest then some (-(digitsVal rest : Int)) else none
  | l => if l ≠ [] ∧ allDigits l then some ((digitsVal l : Int)) else none

/-- Atoi with the error discarded, as the Go call sites do. -/
def atoiD (str : String) : Int := (parseIntOpt str).getD 0

/-- Unsigned plain decimal: digits, optionally with a dot, at least one
digit overall. -/
def parseUnsignedDec (l : List Char) : Option Rat :=
  match l.span (fun ch => ch ≠ '.') with
  | (ip, []) =>
      if ip ≠ [] ∧ allDigits ip then some ((digitsVal ip : Rat)) else none
  | (ip, _ :: fp) =>
      if (ip ≠ [] ∨ fp ≠ []) ∧ allDigits ip ∧ allDigits fp then
        some ((digitsVal ip : Rat) + (digitsVal fp : Rat) / ((10 : Rat) ^ fp.length))
      else none

/-- Model of strconv.ParseFloat restricted to plain decimals. -/
def parseFloatQ (str : String) : Option Rat :=
  match str.data with
  | '+' :: rest => parseUnsignedDec rest
  | '-' :: rest => (parseUnsignedDec rest).map Neg.neg
  | l => parseUnsignedDec l

/-- Sprintf percent dot-2 f on a rational price (ties rounded up; the claims
never inspect a formatted price so the tie rule is immaterial). -/
def fmt2 (q : Rat) : String :=
  let neg := q < 0
  let aq := if neg then -q else q
  let cents : Nat := (Rat.floor (aq * 100 + 1 / 2)).toNat
  let ip := cents / 100
  let fp := cents % 100
  (if neg then "-" else "") ++ toString ip ++ "." ++
    (if fp < 10 then "0" else "") ++ toString fp

/-- Index of the first matching cycle choice, defaulting to 0 (the
defensive fallback of the prefill loop). -/
def cycleIndexOf (choices : List String) (cyc : String) : Int :=
  match choices.findIdx? (fun choice => choice = cyc) with
  | some i => (i : Int)
  | none => 0

/-- Replace the element at an index, leaving the list unchanged out of
range (Go would panic there; unreachable at the modelled call sites). -/
def modifyAt (l : List α) (i : Nat) (f : α → α) : List α :=
  match l, i with
  | [], _ => []
  | x :: xs, 0 => f x :: xs
  | x :: xs, n + 1 => x :: modifyAt xs n f

/-- initForm: reset focus, build the field list, prefill on edit. -/
def initForm (m : Model) (st : SessionState) (isEdit : Bool) : Model :=
  let m1 := { m with focusIndex := 0 }
  if st = .addFood then
    if isEdit ∧ 0 ≤ m1.editIndex then
      let it := m1.foodItems.getD m1.editIndex.toNat ⟨"", 0, 0, 0, 0⟩
      let vals := [it.name, fmt2 it.price, toString it.amount, toString it.renewThreshold]
      { m1 with inputs := vals }
    else { m1 with inputs := ["", "", "", ""] }
  else if st = .addSub then
    let m2 := { m1 with inputs := ["", "", ""], subCycleChoice := 0 }
    if isEdit ∧ 0 ≤ m2.editIndex then
      let it := m2.subItems.getD m2.editIndex.toNat ⟨"", 0, "", ""⟩
      let vals := [it.name, fmt2 it.price, it.dueDate]
      { m2 with inputs := vals,
                subCycleChoice := cycleIndexOf m2.subCycleChoices it.cycle }
    else m2
  else m1

/-- goBack. -/
def goBack (m : Model) : Model :=
  let st :=
    if m.state = .foodRecipe ∨ m.state = .foodBuy ∨ m.state = .addFood ∨
        m.state = .processingBuy then SessionState.food
    else if m.state = .addSub then .subs
    else if m.state = .scrapingCanvas then .study
    else if m.state ≠ .menu then .menu
    else m.state
  { m with state := st, cursor := 0 }

/-- saveForm: validate the name, parse the numeric fields, apply the
auto-renew top-up, store the item and return the sync command. -/
def saveForm (m : Model) : Model × Cmd :=
  let name := m.inputs.getD 0 ""
  if name = "" then (m, .none)
  else
    let m1 := { m with statusMsg := "Syncing..." }
    if m1.state = .addFood then
      let price := (parseFloatQ (m1.inputs.getD 1 "")).getD 0
      let amount0 := atoiD (m1.inputs.getD 2 "")
      let amount1 := if amount0 < 0 then 0 else amount0
      let thresh := atoiD (m1.inputs.getD 3 "")
      let renew := 0 < thresh ∧ amount1 ≤ thresh
      let amount2 := if renew then amount1 + 3 else amount1
      let m2 := if renew then { m1 with statusMsg := autoRenewMsg name } else m1
      let newItem : FoodItem :=
        ⟨name, price, amount2, thresh,
          if 0 ≤ m2.editIndex then
            (m2.foodItems.getD m2.editIndex.toNat ⟨"", 0, 0, 0, 0⟩).cartQty
          else 0⟩
      let m3 :=
        if 0 ≤ m2.editIndex then
          { m2 with foodItems := m2.foodItems.set m2.editIndex.toNat newItem }
        else { m2 with foodItems := m2.foodItems ++ [newItem] }
      (m3, .syncCategory m3.token "Food" (lookupID m3.catIDs "Food") (.food m3.foodItems))
    else if m1.state = .addSub then
      let price := (parseFloatQ (m1.inputs.getD 1 "")).getD 0
      let date0 := m1.inputs.getD 2 ""
      let date := if date0 = "" then "TBD" else date0
      let cyc := m1.subCycleChoices.getD m1.subCycleChoice.toNat ""
      let newItem : SubItem := ⟨name, price, date, cyc⟩
      let m2 :=
        if 0 ≤ m1.editIndex then
          { m1 with subItems := m1.subItems.set m1.editIndex.toNat newItem }
        else { m1 with subItems := m1.subItems ++ [newItem] }
      (m2, .syncCategory m2.token "Subscriptions"
        (lookupID m2.catIDs "Subscriptions") (.subs m2.subItems))
    else (m1, .none)

/-- The character a key feeds to a focused textinput, if any. -/
def keyChar : Key → Option Char
  | .q => some 'q'
  | .a => some 'a'
  | .e => some 'e'
  | .d => some 'd'
  | .s => some 's'
  | .k => some 'k'
  | .j => some 'j'
  | .r => some 'r'
  | .c => some 'c'
  | .space => some ' '
  | .plus => some '+'
  | .minus => some '-'
  | .char ch => some ch
  | _ => Option.none

/-- updateInputs: only the focused input accepts text edits. -/
def updateInputs (m : Model) (key : Key) : Model :=
  match keyChar key with
  | some ch =>
      let edited := (List.range m.inputs.length).zipWith
        (fun i v => if (i : Int) = m.focusIndex then v.push ch else v) m.inputs
      { m with inputs := edited }
  | Option.none =>
      if key = .backspace then
        let edited := (List.range m.inputs.length).zipWith
          (fun i v =>
            if (i : Int) = m.focusIndex then String.mk v.data.dropLast else v) m.inputs
        { m with inputs := edited }
      else m

/-- The form branch of the key switch. -/
def formKey (m : Model) (key : Key) : Model × Cmd :=
  match key with
  | .esc => (goBack m, .none)
  | .left =>
      if m.state = .addSub ∧ m.focusIndex = 3 then
        if 0 < m.subCycleChoice then
          ({ m with subCycleChoice := m.subCycleChoice - 1 }, .none)
        else (m, .none)
      else (updateInputs m key, .ui)
  | .right =>
      if m.state = .addSub ∧ m.focusIndex = 3 then
        if m.subCycleChoice < (m.subCycleChoices.length : Int) - 1 then
          ({ m with subCycleChoice := m.subCycleChoice + 1 }, .none)
        else (m, .none)
      else (updateInputs m key, .ui)
  | .tab | .shiftTab | .enter | .up | .down =>
      let totalFields : Int := 4
      if key = .enter ∧ m.focusIndex = totalFields - 1 then
        let res := saveForm m
        (goBack res.1, res.2)
      else
        let f0 :=
          if key = .up ∨ key = .shiftTab then m.focusIndex - 1 else m.focusIndex + 1
        let f1 :=
          if totalFields - 1 < f0 then 0
          else if f0 < 0 then totalFields - 1
          else f0
        ({ m with focusIndex := f1 }, .ui)
  | _ => (updateInputs m key, .ui)

/-- The main navigation branch of the key switch. -/
def navKey (m : Model) (key : Key) : Model × Cmd :=
  match key with
  | .q => (m, .quit)
  | .esc | .backspace => (goBack m, .none)
  | .up | .k => (if 0 < m.cursor then { m with cursor := m.cursor - 1 } else m, .none)
  | .down | .j =>
      let limit : Int :=
        if m.state = .menu then (m.menuChoices.length : Int) - 1
        else if m.state = .food then (m.foodItems.length : Int) - 1
        else if m.state = .subs then (m.subItems.length : Int) - 1
        else if m.state = .study then (m.studyItems.length : Int) - 1
        else if m.state = .foodBuy then (m.buyChoices.length : Int) - 1
        else 0
      (if m.cursor < limit then { m with cursor := m.cursor + 1 } else m, .none)
  | .a =>
      if m.state = .food then
        (initForm { m with state := .addFood, editIndex := -1 } .addFood false, .none)
      else if m.state = .subs then
        (initForm { m with state := .addSub, editIndex := -1 } .addSub false, .none)
      else (m, .none)
  | .e =>
      if m.state = .food ∧ m.foodItems ≠ [] then
        (initForm { m with state := .addFood, editIndex := m.cursor } .addFood true, .none)
      else if m.state = .subs ∧ m.subItems ≠ [] then
        (initForm { m with state := .addSub, editIndex := m.cursor } .addSub true, .none)
      else (m, .none)
  | .d =>
      let m1 := { m with statusMsg := "Syncing deletion..." }
      if m1.state = .food ∧ m1.foodItems ≠ [] then
        let items := m1.foodItems.eraseIdx m1.cursor.toNat
        let c1 :=
          if (items.length : Int) ≤ m1.cursor ∧ 0 < (items.length : Int) then
            (items.length : Int) - 1
          else if items.length = 0 then 0
          else m1.cursor
        let m2 := { m1 with foodItems := items, cursor := c1 }
        (m2, .syncCategory m2.token "Food" (lookupID m2.catIDs "Food") (.food items))
      else if m1.state = .subs ∧ m1.subItems ≠ [] then
        let items := m1.subItems.eraseIdx m1.cursor.toNat
        let c1 :=
          if (items.length : Int) ≤ m1.cursor ∧ 0 < (items.length : Int) then
            (items.length : Int) - 1
          else if items.length = 0 then 0
          else m1.cursor
        let m2 := { m1 with subItems := items, cursor := c1 }
        (m2, .syncCategory m2.token "Subscriptions"
          (lookupID m2.catIDs "Subscriptions") (.subs items))
      else (m1, .none)
  | .s =>
      if m.state = .study then
        ({ m with state := .scrapingCanvas }, .scrapeCanvas m.token)
      else (m, .none)
  | .right | .plus =>
      if m.state = .food ∧ m.foodItems ≠ [] then
        let items := modifyAt m.foodItems m.cursor.toNat
          (fun it => { it with cartQty := it.cartQty + 1 })
        ({ m with foodItems := items }, .none)
      else (m, .none)
  | .left | .minus =>
      if m.state = .food ∧ m.foodItems ≠ [] then
        let items := modifyAt m.foodItems m.cursor.toNat
          (fun it => if 0 < it.cartQty then { it with cartQty := it.cartQty - 1 } else it)
        ({ m with foodItems := items }, .none)
      else (m, .none)
  | .space =>
      if m.state = .food ∧ m.foodItems ≠ [] then
        let items := modifyAt m.foodItems m.cursor.toNat
          (fun it => if it.cartQty = 0 then { it with cartQty := 1 }
                     else { it with cartQty := 0 })
        ({ m with foodItems := items }, .none)
      else (m, .none)
  | .r =>
      if m.state = .food then
        let ingredients := m.foodItems.filterMap
          (fun it => if 0 < it.cartQty then some it.name else Option.none)
        ({ m with state := .foodRecipe, isGenerating := true,
                  generatedRecipe := connectingRecipeMsg },
          .generateRecipe ingredients)
      else (m, .none)
  | .c =>
      if m.state = .food then ({ m with state := .foodBuy, cursor := 0 }, .none)
      else (m, .none)
  | .enter =>
      if m.state = .menu then
        let st :=
          if m.cursor = 0 then SessionState.food
          else if m.cursor = 1 then .subs
          else if m.cursor = 2 then .study
          else m.state
        ({ m with state := st, cursor := 0 }, .none)
      else if m.state = .foodBuy then
        ({ m with state := .processingBuy }, .processBuy)
      else (m, .none)
  | _ => (m, .none)

/-- The tea.KeyMsg branch: hard quit, blocking states, forms, navigation. -/
def updateKey (m : Model) (key : Key) : Model × Cmd :=
  if key = .ctrlC then (m, .quit)
  else if m.state = .processingBuy ∨ m.state = .scrapingCanvas then (m, .none)
  else if m.state = .addFood ∨ m.state = .addSub then formKey m key
  else navKey m key

/-- One category of a fetch result: record its id, then decode its items
into the matching collection (fetched food always has zero CartQty by the
json dash tag). -/
def applyCat (m : Model) (cat : CategoryResponse) : Model :=
  let m1 := { m with catIDs := (cat.name, cat.id) :: m.catIDs }
  if cat.name = "Food" then
    match cat.content with
    | .food items =>
        { m1 with foodItems := items.map (fun it => { it with cartQty := 0 }) }
    | _ => m1
  else if cat.name = "Subscriptions" then
    match cat.content with
    | .subs items => { m1 with subItems := items }
    | _ => m1
  else if cat.name = "Academics" then
    match cat.content with
    | .study items => { m1 with studyItems := items }
    | _ => m1
  else m1

/-- Update. -/
def update (m : Model) (msg : Msg) : Model × Cmd :=
  match msg with
  | .dataFetched cats =>
      (cats.foldl applyCat { m with statusMsg := dataLoadedMsg }, .none)
  | .syncSuccess =>
      let m1 :=
        if m.statusMsg = "Syncing..." ∨ m.statusMsg = "Syncing deletion..." ∨
            m.statusMsg = "Syncing Canvas data..." then
          { m with statusMsg := savedMsg }
        else m
      (m1, .fetchCategories m1.token)
  | .recipeGenerated text =>
      ({ m with isGenerating := false, generatedRecipe := text }, .none)
  | .buyComplete =>
      let items := m.foodItems.map
        (fun it =>
          if 0 < it.cartQty then
            { it with amount := it.amount + it.cartQty, cartQty := 0 }
          else it)
      let m1 := { m with foodItems := items, state := .food, cursor := 0,
                         statusMsg := orderPlacedMsg }
      (m1, .syncCategory m1.token "Food" (lookupID m1.catIDs "Food") (.food items))
  | .canvasScraped items =>
      ({ m with studyItems := items, state := .study, cursor := 0,
                statusMsg := canvasDoneMsg }, .fetchCategories m.token)
  | .err e =>
      let m1 := { m with isGenerating := false, statusMsg := "Error: " ++ e }
      let m2 :=
        if m1.state = .foodRecipe then
          { m1 with generatedRecipe := "Server Error: " ++ e }
        else m1
      (m2, .none)
  | .key key => updateKey m key

/-- Run a list of events through Update, keeping the model. -/
def runMsgs (m : Model) (msgs : List Msg) : Model :=
  msgs.foldl (fun mm msg => (update mm msg).1) m

/-- Run a list of key events through Update, keeping the model. -/
def runKeys (m : Model) (keys : List Key) : Model :=
  keys.foldl (fun mm key => (update mm (.key key)).1) m

/-- Length of the collection the current screen lists, if it lists one. -/
def screenLen (m : Model) : Option Nat :=
  match m.state with
  | .menu => some m.menuChoices.length
  | .food => some m.foodItems.length
  | .foodBuy => some m.buyChoices.length
  | .subs => some m.subItems.length
  | .study => some m.studyItems.length
  | _ => Option.none

/-- The cursor invariant of the spec: within the active collection's
bounds, or 0 when that collection is empty; screens without a listed
collection impose no bound. -/
def cursorOKb (m : Model) : Bool :=
  match screenLen m with
  | some n =>
      (decide (0 ≤ m.cursor) && decide (m.cursor ≤ (n : Int) - 1)) ||
        (decide (n = 0) && decide (m.cursor = 0))
  | Option.none => true

/-- The cursor invariant as a proposition. -/
def CursorOK (m : Model) : Prop :=
  ∀ n, screenLen m = some n →
    (0 ≤ m.cursor ∧ m.cursor ≤ (n : Int) - 1) ∨ (n = 0 ∧ m.cursor = 0)

end LifeTui

namespace LifeTuiMain

/-!
The src/main.go variant of the application: only the pieces its claim
needs are embedded, namely the model fields `saveForm` reads and writes.
Its FoodItem carries a `Selected` flag instead of a cart quantity.
-/

/-- FoodItem struct of the main.go variant. -/
structure MFoodItem where
  name : String
  price : Rat
  amount : Int
  renewThreshold : Int
  selected : Bool
deriving DecidableEq, Repr

/-- SubItem struct of the main.go variant. -/
structure MSubItem where
  name : String
  price : Rat
  dueDate : String
  cycle : String
deriving DecidableEq, Repr

/-- The fields of the main.go model that saveForm touches (its session
states are a subset of the networked variant's, so the state type is
shared). -/
structure MModel where
  state : LifeTui.SessionState
  inputs : List String
  editIndex : Int
  subCycleChoices : List String
  subCycleChoice : Int
  foodItems : List MFoodItem
  subItems : List MSubItem
deriving DecidableEq, Repr

/-- saveForm of src/main.go: note the coercion of a zero stock amount to
one, which the networked variant does not perform. -/
def saveForm (m : MModel) : MModel :=
  let name := m.inputs.getD 0 ""
  if name = "" then m
  else if m.state = .addFood then
    let price := (LifeTui.parseFloatQ (m.inputs.getD 1 "")).getD 0
    let amount0 := LifeTui.atoiD (m.inputs.getD 2 "")
    let amount := if amount0 = 0 then 1 else amount0
    let thresh := LifeTui.atoiD (m.inputs.getD 3 "")
    let newItem : MFoodItem :=
      ⟨name, price, amount, thresh,
        if 0 ≤ m.editIndex then
          (m.foodItems.getD m.editIndex.toNat ⟨"", 0, 0, 0, false⟩).selected
        else false⟩
    if 0 ≤ m.editIndex then
      { m with foodItems := m.foodItems.set m.editIndex.toNat newItem }
    else { m with foodItems := m.foodItems ++ [newItem] }
  else if m.state = .addSub then
    let price := (LifeTui.parseFloatQ (m.inputs.getD 1 "")).getD 0
    let date0 := m.inputs.getD 2 ""
    let date := if date0 = "" then "TBD" else date0
    let cyc := m.subCycleChoices.getD m.subCycleChoice.toNat ""
    let newItem : MSubItem := ⟨name, price, date, cyc⟩
    if 0 ≤ m.editIndex then
      { m with subItems := m.subItems.set m.editIndex.toNat newItem }
    else { m with subItems := m.subItems ++ [newItem] }
  else m

end LifeTuiMain

namespace LifeTui

/-! Helper lemmas. -/

theorem cursorOK_iff (m : Model) : cursorOKb m = true ↔ CursorOK m := by
  unfold cursorOKb CursorOK
  rcases hs : screenLen m with _ | n
  · simp
  · simp only [Bool.or_eq_true, Bool.and_eq_true, decide_eq_true_eq]
    constructor
    · rintro hh n' hn'
      injection hn' with hinj
      subst hinj
      exact hh
    · intro hh
      exact hh n rfl

theorem CursorOK_of_zero (m : Model) (h : m.cursor = 0) : CursorOK m := by
  intro n hn
  omega

theorem modifyAt_length (l : List α) (i : Nat) (f : α → α) :
    (modifyAt l i f).length = l.length := by
  induction l generalizing i with
  | nil => rfl
  | cons x xs ih =>
    cases i with
    | zero => rfl
    | succ n => simp [modifyAt, ih]

theorem goBack_cursor (m : Model) : (goBack m).cursor = 0 := rfl

theorem CursorOK_goBack (m : Model) : CursorOK (goBack m) :=
  CursorOK_of_zero _ rfl

end LifeTui

namespace LifeTui

theorem err_update (m : Model) (e : String) :
    update m (.err e) =
      ({ m with isGenerating := false, statusMsg := "Error: " ++ e,
                generatedRecipe :=
                  if m.state = .foodRecipe then "Server Error: " ++ e
                  else m.generatedRecipe }, Cmd.none) := by
  by_cases h : m.state = .foodRecipe <;> simp [update, h]

theorem stepKey_blocking (m : Model) (key : Key)
    (h : m.state = .processingBuy ∨ m.state = .scrapingCanvas) :
    (update m (.key key)).1 = m := by
  by_cases hk : key = .ctrlC <;> rcases h with h | h <;>
    simp [update, updateKey, hk, h]

/-- C6: while the session is in FoodCheckoutProcessing or AcademicsSyncing,
every key event other than the hard-quit key leaves the session unchanged
and dispatches no command. -/
theorem c6_blocking_states_ignore_keys (m : Model) (key : Key)
    (hs : m.state = .processingBuy ∨ m.state = .scrapingCanvas)
    (hk : key ≠ Key.ctrlC) :
    update m (.key key) = (m, Cmd.none) := by
  rcases hs with h | h <;> simp [update, updateKey, hk, h]

/-- C6 witness at a concrete blocked session and key. -/
theorem c6_blocking_states_ignore_keys_witness :
    update { initialModel "u" with state := SessionState.processingBuy } (.key .enter) =
      ({ initialModel "u" with state := SessionState.processingBuy }, Cmd.none) :=
  c6_blocking_states_ignore_keys _ _ (Or.inl rfl) (by decide)

/-- C7: processing an async failure leaves the screen, the cursor and all
three collections (and everything else except the generating flag)
unchanged; only the status message changes and, on the recipe screen, the
recipe text is replaced by a formatted error; no command is dispatched. -/
theorem c7_async_failure_frame (m : Model) (e : String) :
    update m (.err e) =
      ({ m with isGenerating := false, statusMsg := "Error: " ++ e,
                generatedRecipe :=
                  if m.state = .foodRecipe then "Server Error: " ++ e
                  else m.generatedRecipe }, Cmd.none) :=
  err_update m e

/-- C10: once a scrape error has been processed in AcademicsSyncing, the
session is stuck there: the error handler keeps the state and dispatches
nothing, every subsequent key sequence leaves the resulting session
unchanged, and every key except the hard-quit key yields no command. -/
theorem c10_scrape_error_stuck (m : Model) (hs : m.state = .scrapingCanvas)
    (e : String) :
    (update m (.err e)).1.state = SessionState.scrapingCanvas ∧
    (update m (.err e)).2 = Cmd.none ∧
    (∀ keys : List Key, runKeys (update m (.err e)).1 keys = (update m (.err e)).1) ∧
    (∀ key : Key, key ≠ Key.ctrlC →
      update (update m (.err e)).1 (.key key) = ((update m (.err e)).1, Cmd.none)) := by
  have hstate : (update m (.err e)).1.state = SessionState.scrapingCanvas := by
    rw [err_update]
    exact hs
  refine ⟨hstate, by rw [err_update], ?_, ?_⟩
  · intro keys
    induction keys with
    | nil => rfl
    | cons kk rest ih =>
      show runKeys (update (update m (.err e)).1 (.key kk)).1 rest = _
      rw [stepKey_blocking _ _ (Or.inr hstate)]
      exact ih
  · intro key hk
    exact c6_blocking_states_ignore_keys _ _ (Or.inr hstate) hk

/-- C10 witness at a concrete stuck session. -/
theorem c10_scrape_error_stuck_witness :
    (update { initialModel "u" with state := SessionState.scrapingCanvas }
        (.err "boom")).1.state = SessionState.scrapingCanvas ∧
    runKeys (update { initialModel "u" with state := SessionState.scrapingCanvas }
        (.err "boom")).1 [.esc, .enter, .s, .q] =
      (update { initialModel "u" with state := SessionState.scrapingCanvas }
        (.err "boom")).1 := by
  have h := c10_scrape_error_stuck
    { initialModel "u" with state := SessionState.scrapingCanvas } rfl "boom"
  exact ⟨h.1, h.2.2.1 _⟩

end LifeTui

namespace LifeTui

theorem formKey_not_blocked (m : Model) (key : Key)
    (hf : m.state = .addFood ∨ m.state = .addSub) (hk : key ≠ Key.ctrlC) :
    update m (.key key) = formKey m key := by
  rcases hf with h | h <;> simp [update, updateKey, hk, h]

/-- C8: in an open form, advancing focus from logical field 3 wraps to 0
and regressing from field 0 wraps to 3 (cyclic); the subscription cycle
selector, stepped by left/right while focused, clamps at both ends of the
fixed choice set. -/
theorem c8_focus_cycles_selector_clamps (m : Model)
    (hf : m.state = .addFood ∨ m.state = .addSub) :
    (m.focusIndex = 3 →
      (update m (.key .tab)).1.focusIndex = 0 ∧
      (update m (.key .down)).1.focusIndex = 0) ∧
    (m.focusIndex = 0 →
      (update m (.key .shiftTab)).1.focusIndex = 3 ∧
      (update m (.key .up)).1.focusIndex = 3) ∧
    (m.state = .addSub → m.focusIndex = 3 →
      (m.subCycleChoice = 0 → update m (.key .left) = (m, Cmd.none)) ∧
      (m.subCycleChoice = (m.subCycleChoices.length : Int) - 1 →
        update m (.key .right) = (m, Cmd.none))) := by
  refine ⟨?_, ?_, ?_⟩
  · intro h3
    rw [formKey_not_blocked m .tab hf (by decide),
        formKey_not_blocked m .down hf (by decide)]
    constructor <;> simp [formKey, h3]
  · intro h0
    rw [formKey_not_blocked m .shiftTab hf (by decide),
        formKey_not_blocked m .up hf (by decide)]
    constructor <;> simp [formKey, h0]
  · intro hsub h3
    constructor
    · intro hz
      rw [formKey_not_blocked m .left hf (by decide)]
      simp [formKey, hsub, h3, hz]
    · intro hlast
      rw [formKey_not_blocked m .right hf (by decide)]
      have : ¬ m.subCycleChoice < (m.subCycleChoices.length : Int) - 1 := by omega
      simp [formKey, hsub, h3, this]

/-- A concrete subscription form with focus on the selector. -/
def subFormSample : Model :=
  { initialModel "u" with state := .addSub, inputs := ["x", "", ""], focusIndex := 3 }

/-- C8 witness: a concrete subscription form with focus on the selector. -/
theorem c8_focus_cycles_selector_clamps_witness :
    (update subFormSample (.key .tab)).1.focusIndex = 0 ∧
    update subFormSample (.key .left) = (subFormSample, Cmd.none) := by
  have h := c8_focus_cycles_selector_clamps subFormSample (Or.inr rfl)
  exact ⟨(h.1 rfl).1, (h.2.2 rfl rfl).1 rfl⟩

end LifeTui

namespace LifeTui

/-- C1 counterexample: a food form with an empty name field; confirming on
the last field leaves the collection and status untouched but closes the
form (the session moves to the food list, so it does not remain on the
form screen as claimed). -/
def emptyNameFormSample : Model :=
  { initialModel "u" with state := .addFood, inputs := ["", "", "", ""], focusIndex := 3 }

theorem c1_empty_name_save_counterexample :
    emptyNameFormSample.state = SessionState.addFood ∧
    (update emptyNameFormSample (.key .enter)).1.state = SessionState.food ∧
    (update emptyNameFormSample (.key .enter)).1.foodItems =
      emptyNameFormSample.foodItems ∧
    (update emptyNameFormSample (.key .enter)).1.statusMsg =
      emptyNameFormSample.statusMsg ∧
    (update emptyNameFormSample (.key .enter)).2 = Cmd.none := by
  decide

/-- C1 amended: confirming on the last field of a form whose name field is
empty leaves the owning collection and the status message unchanged and
dispatches nothing, but the form closes: the session transitions back to
the owning list screen with cursor 0. -/
theorem c1_empty_name_save_amended (m : Model)
    (hf : m.state = .addFood ∨ m.state = .addSub)
    (hname : m.inputs.getD 0 "" = "") (hfocus : m.focusIndex = 3) :
    update m (.key .enter) = (goBack m, Cmd.none) ∧
    (goBack m).foodItems = m.foodItems ∧
    (goBack m).subItems = m.subItems ∧
    (goBack m).statusMsg = m.statusMsg ∧
    (goBack m).state = (if m.state = .addFood then SessionState.food else .subs) ∧
    (goBack m).cursor = 0 := by
  have hname' : m.inputs[0]?.getD "" = "" := by
    simpa [List.getD] using hname
  refine ⟨?_, rfl, rfl, rfl, ?_, rfl⟩
  · rw [formKey_not_blocked m .enter hf (by decide)]
    simp [formKey, hfocus, saveForm, hname']
  · rcases hf with h | h <;> simp [goBack, h]

/-- C1 amended witness at the concrete empty-name food form. -/
theorem c1_empty_name_save_amended_witness :
    update emptyNameFormSample (.key .enter) = (goBack emptyNameFormSample, Cmd.none) ∧
    (goBack emptyNameFormSample).cursor = 0 := by
  have h := c1_empty_name_save_amended emptyNameFormSample (Or.inl rfl) rfl rfl
  exact ⟨h.1, h.2.2.2.2.2⟩

end LifeTui

namespace LifeTui

theorem initForm_cursor (m : Model) (st : SessionState) (b : Bool) :
    (initForm m st b).cursor = m.cursor := by
  simp only [initForm]
  split_ifs <;> rfl

/-- C3 counterexample: a food list with the cursor on the second row;
pressing r enters the recipe screen with the cursor still at 1, so a
command-key navigation does not reset the cursor to 0 as claimed. -/
def foodCursorSample : Model :=
  { initialModel "u" with
      state := .food
      cursor := 1
      foodItems := [⟨"A", 2, 5, 0, 0⟩, ⟨"B", 3, 1, 0, 0⟩] }

theorem c3_cursor_reset_counterexample :
    (update foodCursorSample (.key .r)).1.state = SessionState.foodRecipe ∧
    (update foodCursorSample (.key .r)).1.cursor = 1 := by
  decide

/-- C3 amended: menu selection, checkout entry (c) and every back
transition reset the cursor to 0, but the command keys r, a, e and s keep
the prior cursor value while switching screens (their target screens list
no collection, and every entry into a list screen still happens with
cursor 0). -/
theorem c3_cursor_reset_amended (m : Model) :
    (m.state = .menu → (update m (.key .enter)).1.cursor = 0) ∧
    (m.state = .food → (update m (.key .c)).1.cursor = 0) ∧
    (m.state ≠ .processingBuy → m.state ≠ .scrapingCanvas →
      (update m (.key .esc)).1.cursor = 0) ∧
    (m.state = .food →
      (update m (.key .r)).1.state = SessionState.foodRecipe ∧
      (update m (.key .r)).1.cursor = m.cursor) ∧
    (m.state = .food → (update m (.key .a)).1.cursor = m.cursor) ∧
    (m.state = .food → m.foodItems ≠ [] →
      (update m (.key .e)).1.cursor = m.cursor) ∧
    (m.state = .study →
      (update m (.key .s)).1.state = SessionState.scrapingCanvas ∧
      (update m (.key .s)).1.cursor = m.cursor) := by
  refine ⟨?_, ?_, ?_, ?_, ?_, ?_, ?_⟩
  · intro h
    simp [update, updateKey, navKey, h]
  · intro h
    simp [update, updateKey, navKey, h]
  · intro h1 h2
    by_cases hform : m.state = .addFood ∨ m.state = .addSub
    · simp [update, updateKey, h1, h2, hform, formKey, goBack]
    · simp [update, updateKey, h1, h2, hform, navKey, goBack]
  · intro h
    simp [update, updateKey, navKey, h]
  · intro h
    simp only [update, updateKey]
    simp [navKey, h, initForm_cursor]
  · intro h hne
    simp only [update, updateKey]
    simp [navKey, h, hne, initForm_cursor]
  · intro h
    simp [update, updateKey, navKey, h]

/-- C3 amended witness at the concrete food list with cursor 1. -/
theorem c3_cursor_reset_amended_witness :
    (update foodCursorSample (.key .c)).1.cursor = 0 ∧
    (update foodCursorSample (.key .a)).1.cursor = foodCursorSample.cursor := by
  have h := c3_cursor_reset_amended foodCursorSample
  exact ⟨h.2.1 rfl, h.2.2.2.2.1 rfl⟩

end LifeTui

namespace LifeTui

/-- C4: at food-form save time, when the entered threshold is positive and
the entered (non-negative) stock amount is at most that threshold, exactly
3 units are added to the stored stock, the status message announces the
auto top-up, and the stored collection is handed to the sync command. -/
theorem c4_auto_renew_topup (m : Model) (n p a t : String)
    (hstate : m.state = .addFood) (hinputs : m.inputs = [n, p, a, t])
    (hn : n ≠ "") (av tv : Int)
    (ha : parseIntOpt a = some av) (hav : 0 ≤ av)
    (ht : parseIntOpt t = some tv) (htv : 0 < tv) (hle : av ≤ tv) :
    (saveForm m).1.statusMsg = autoRenewMsg n ∧
    (m.editIndex < 0 →
      (saveForm m).1.foodItems =
        m.foodItems ++ [⟨n, (parseFloatQ p).getD 0, av + 3, tv, 0⟩] ∧
      (saveForm m).2 = Cmd.syncCategory m.token "Food" (lookupID m.catIDs "Food")
        (SyncPayload.food ((saveForm m).1.foodItems))) ∧
    (0 ≤ m.editIndex →
      (saveForm m).1.foodItems =
        m.foodItems.set m.editIndex.toNat
          ⟨n, (parseFloatQ p).getD 0, av + 3, tv,
            (m.foodItems.getD m.editIndex.toNat ⟨"", 0, 0, 0, 0⟩).cartQty⟩) := by
  have hneg : ¬ av < 0 := by omega
  by_cases he : 0 ≤ m.editIndex
  · have he' : ¬ m.editIndex < 0 := by omega
    refine ⟨?_, fun hlt => absurd hlt he', fun _ => ?_⟩ <;>
      simp [saveForm, hinputs, hstate, hn, atoiD, ha, ht, hneg, htv, hle, he]
  · have he' : m.editIndex < 0 := by omega
    refine ⟨?_, fun _ => ⟨?_, ?_⟩, fun hge => absurd hge he⟩ <;>
      simp [saveForm, hinputs, hstate, hn, atoiD, ha, ht, hneg, htv, hle, he]

/-- A concrete food form entering stock 1 with threshold 2. -/
def autoRenewSample : Model :=
  { initialModel "u" with
      state := .addFood
      inputs := ["Apples", "2.50", "1", "2"]
      focusIndex := 3 }

/-- C4 witness: saving stock 1 with threshold 2 stores stock 4 and the
auto-renew status message. -/
theorem c4_auto_renew_topup_witness :
    (saveForm autoRenewSample).1.statusMsg = autoRenewMsg "Apples" ∧
    (saveForm autoRenewSample).1.foodItems =
      autoRenewSample.foodItems ++
        [⟨"Apples", (parseFloatQ "2.50").getD 0, 1 + 3, 2, 0⟩] := by
  have h := c4_auto_renew_topup autoRenewSample "Apples" "2.50" "1" "2" rfl rfl
    (by decide) 1 2 (by decide) (by decide) (by decide) (by decide) (by decide)
  exact ⟨h.1, (h.2.1 (by decide)).1⟩

end LifeTui

namespace LifeTui

/-- A main.go-variant food form whose price, amount and threshold fields
all fail to parse. -/
def mainParseSample : LifeTuiMain.MModel :=
  ⟨.addFood, ["X", "oops", "abc", "?"], -1, ["Monthly", "3 Months", "Yearly"], 0, [], []⟩

/-- C9 counterexample: in the src/main.go variant the stock-amount field
"abc" fails to parse, yet the stored amount is 1, not 0 (the save routine
coerces a zero amount to one). -/
theorem c9_parse_leniency_counterexample :
    (LifeTuiMain.saveForm mainParseSample).foodItems = [⟨"X", 0, 1, 0, false⟩] ∧
    ((LifeTuiMain.saveForm mainParseSample).foodItems.getD 0
        ⟨"", 0, 0, 0, false⟩).amount ≠ 0 := by
  decide

/-- C9 amended: in the networked variant an unparsable price is stored as
0, and unparsable amount/threshold fields are used as 0, silently, with
the save completing and a sync dispatched; in the src/main.go variant the
same holds for price and threshold, but a stock amount that parses to 0
or fails to parse is stored as 1. -/
theorem c9_parse_leniency_amended (m : Model) (n p a t : String)
    (hstate : m.state = .addFood) (hinputs : m.inputs = [n, p, a, t]) (hn : n ≠ "")
    (hp : parseFloatQ p = Option.none) (ha : parseIntOpt a = Option.none)
    (ht : parseIntOpt t = Option.none) (hedit : m.editIndex < 0) :
    (saveForm m).1.foodItems = m.foodItems ++ [⟨n, 0, 0, 0, 0⟩] ∧
    (saveForm m).1.statusMsg = "Syncing..." ∧
    (saveForm m).2 = Cmd.syncCategory m.token "Food" (lookupID m.catIDs "Food")
      (SyncPayload.food (m.foodItems ++ [⟨n, 0, 0, 0, 0⟩])) ∧
    (∀ mm : LifeTuiMain.MModel, mm.state = .addFood → mm.inputs = [n, p, a, t] →
      mm.editIndex < 0 →
      (LifeTuiMain.saveForm mm).foodItems = mm.foodItems ++ [⟨n, 0, 1, 0, false⟩]) := by
  have he : ¬ 0 ≤ m.editIndex := by omega
  refine ⟨?_, ?_, ?_, ?_⟩
  · simp [saveForm, hinputs, hstate, hn, atoiD, ha, ht, hp, he]
  · simp [saveForm, hinputs, hstate, hn, atoiD, ha, ht, hp, he]
  · simp [saveForm, hinputs, hstate, hn, atoiD, ha, ht, hp, he]
  · intro mm h1 h2 h3
    have he2 : ¬ 0 ≤ mm.editIndex := by omega
    simp [LifeTuiMain.saveForm, h1, h2, hn, atoiD, ha, ht, hp, he2]

/-- A networked-variant food form with the same unparsable fields. -/
def parseLeniencySample : Model :=
  { initialModel "u" with
      state := .addFood
      inputs := ["X", "oops", "abc", "?"]
      focusIndex := 3 }

/-- C9 amended witness on both variants at concrete unparsable fields. -/
theorem c9_parse_leniency_amended_witness :
    (saveForm parseLeniencySample).1.foodItems =
      parseLeniencySample.foodItems ++ [⟨"X", 0, 0, 0, 0⟩] ∧
    (LifeTuiMain.saveForm mainParseSample).foodItems =
      mainParseSample.foodItems ++ [⟨"X", 0, 1, 0, false⟩] := by
  have h := c9_parse_leniency_amended parseLeniencySample "X" "oops" "abc" "?"
    rfl rfl (by decide) (by decide) (by decide) (by decide) (by decide)
  exact ⟨h.1, h.2.2.2 mainParseSample rfl rfl (by decide)⟩

end LifeTui

namespace LifeTui

/-- Fold the cart quantity of an item into its stock and reset it. -/
def drainItem (it : FoodItem) : FoodItem :=
  { it with amount := it.amount + it.cartQty, cartQty := 0 }

theorem drain_map (l : List FoodItem) (hq : ∀ it ∈ l, 0 ≤ it.cartQty) :
    l.map (fun it =>
      if 0 < it.cartQty then
        { it with amount := it.amount + it.cartQty, cartQty := 0 }
      else it) = l.map drainItem := by
  induction l with
  | nil => rfl
  | cons x xs ih =>
    have hx : 0 ≤ x.cartQty := hq x (by simp)
    have hxs : ∀ it ∈ xs, 0 ≤ it.cartQty := fun it h => hq it (by simp [h])
    simp only [List.map_cons, ih hxs]
    congr 1
    by_cases hpos : 0 < x.cartQty
    · simp [drainItem, hpos]
    · have h0 : x.cartQty = 0 := by omega
      cases x with
      | mk nm pr am rt cq =>
        simp only at h0
        simp [drainItem, hpos, h0]

/-- C5: confirming on the checkout screen moves to the processing state
and dispatches the checkout task; processing its completion message folds
every cart quantity into stock and resets it to zero, dispatches a sync of
the food collection and returns to the food list with cursor 0. -/
theorem c5_checkout_flow (m : Model) (hs : m.state = .foodBuy)
    (hq : ∀ it ∈ m.foodItems, 0 ≤ it.cartQty) :
    update m (.key .enter) = ({ m with state := .processingBuy }, Cmd.processBuy) ∧
    update { m with state := .processingBuy } .buyComplete =
      ({ m with
          state := .food
          cursor := 0
          statusMsg := orderPlacedMsg
          foodItems := m.foodItems.map drainItem },
        Cmd.syncCategory m.token "Food" (lookupID m.catIDs "Food")
          (SyncPayload.food (m.foodItems.map drainItem))) := by
  constructor
  · simp [update, updateKey, navKey, hs]
  · have hd := drain_map m.foodItems hq
    simp [update, hd]

/-- A concrete checkout screen with two cart-selected items. -/
def checkoutSample : Model :=
  { initialModel "u" with
      state := .foodBuy
      foodItems := [⟨"A", 2, 5, 0, 3⟩, ⟨"B", 5, 1, 0, 1⟩] }

/-- C5 witness at the concrete checkout screen. -/
theorem c5_checkout_flow_witness :
    update checkoutSample (.key .enter) =
      ({ checkoutSample with state := .processingBuy }, Cmd.processBuy) ∧
    (update { checkoutSample with state := .processingBuy } .buyComplete).1.foodItems =
      checkoutSample.foodItems.map drainItem := by
  have h := c5_checkout_flow checkoutSample rfl (by decide)
  refine ⟨h.1, ?_⟩
  rw [h.2]

end LifeTui

namespace LifeTui

theorem CursorOK_nonList (m : Model) (h : screenLen m = Option.none) :
    CursorOK m := by
  intro n hn
  rw [h] at hn
  cases hn

theorem screenLen_form (m : Model)
    (h : m.state = .addFood ∨ m.state = .addSub) :
    screenLen m = Option.none := by
  rcases h with h | h <;> (unfold screenLen; rw [h])

theorem CursorOK_form (m : Model)
    (h : m.state = .addFood ∨ m.state = .addSub) : CursorOK m :=
  CursorOK_nonList m (screenLen_form m h)

theorem CursorOK_setCursor (m : Model) (c : Int)
    (h : ∀ n, screenLen m = some n →
      (0 ≤ c ∧ c ≤ (n : Int) - 1) ∨ (n = 0 ∧ c = 0)) :
    CursorOK { m with cursor := c } := by
  intro n hn
  have hn' : screenLen m = some n := hn
  simpa using h n hn'

theorem CursorOK_formKey (m : Model) (key : Key)
    (hform : m.state = .addFood ∨ m.state = .addSub) :
    CursorOK (formKey m key).1 := by
  have hupd : ∀ k2 : Key, CursorOK (updateInputs m k2) := by
    intro k2
    rcases hch : keyChar k2 with _ | ch <;> simp only [updateInputs, hch]
    · split_ifs <;> exact CursorOK_form _ hform
    · exact CursorOK_form _ hform
  cases key
  case esc => exact CursorOK_goBack m
  case left =>
    simp only [formKey]
    split_ifs <;> first
      | exact CursorOK_form _ hform
      | exact hupd _
  case right =>
    simp only [formKey]
    split_ifs <;> first
      | exact CursorOK_form _ hform
      | exact hupd _
  case tab =>
    simp only [formKey]
    split_ifs <;> first
      | exact CursorOK_goBack _
      | exact CursorOK_form _ hform
  case shiftTab =>
    simp only [formKey]
    split_ifs <;> first
      | exact CursorOK_goBack _
      | exact CursorOK_form _ hform
  case enter =>
    simp only [formKey]
    split_ifs <;> first
      | exact CursorOK_goBack _
      | exact CursorOK_form _ hform
  case up =>
    simp only [formKey]
    split_ifs <;> first
      | exact CursorOK_goBack _
      | exact CursorOK_form _ hform
  case down =>
    simp only [formKey]
    split_ifs <;> first
      | exact CursorOK_goBack _
      | exact CursorOK_form _ hform
  all_goals exact hupd _

end LifeTui

namespace LifeTui

theorem initForm_state (m : Model) (st : SessionState) (b : Bool) :
    (initForm m st b).state = m.state := by
  simp only [initForm]
  split_ifs <;> rfl

theorem CursorOK_navKey (m : Model) (key : Key) (h : CursorOK m) :
    CursorOK (navKey m key).1 := by
  cases key
  case q => exact h
  case ctrlC => exact h
  case tab => exact h
  case shiftTab => exact h
  case char ch => exact h
  case esc => exact CursorOK_goBack m
  case backspace => exact CursorOK_goBack m
  case up =>
    simp only [navKey]
    split_ifs with hc
    · apply CursorOK_setCursor
      intro n hn
      have hh := h n hn
      omega
    · exact h
  case k =>
    simp only [navKey]
    split_ifs with hc
    · apply CursorOK_setCursor
      intro n hn
      have hh := h n hn
      omega
    · exact h
  case down =>
    simp only [navKey]
    split_ifs <;>
      first
        | exact h
        | (apply CursorOK_setCursor
           intro n hn
           have hh := h n hn
           rcases hstate : m.state <;> simp_all [screenLen] <;> omega)
  case j =>
    simp only [navKey]
    split_ifs <;>
      first
        | exact h
        | (apply CursorOK_setCursor
           intro n hn
           have hh := h n hn
           rcases hstate : m.state <;> simp_all [screenLen] <;> omega)
  case a =>
    simp only [navKey]
    split_ifs with h1 h2
    · exact CursorOK_form _ (Or.inl (by rw [initForm_state]))
    · exact CursorOK_form _ (Or.inr (by rw [initForm_state]))
    · exact h
  case e =>
    simp only [navKey]
    split_ifs with h1 h2
    · exact CursorOK_form _ (Or.inl (by rw [initForm_state]))
    · exact CursorOK_form _ (Or.inr (by rw [initForm_state]))
    · exact h
  case s =>
    simp only [navKey]
    split_ifs with h1
    · exact CursorOK_nonList _ rfl
    · exact h
  case r =>
    simp only [navKey]
    split_ifs with h1
    · exact CursorOK_nonList _ rfl
    · exact h
  case c =>
    simp only [navKey]
    split_ifs with h1
    · exact CursorOK_of_zero _ rfl
    · exact h
  case enter =>
    simp only [navKey]
    split_ifs <;>
      first
        | exact CursorOK_of_zero _ rfl
        | exact CursorOK_nonList _ rfl
        | exact h
  case left =>
    simp only [navKey]
    split_ifs with h1
    · intro n hn
      have hn' : screenLen m = some n := by
        unfold screenLen at hn ⊢
        simpa [modifyAt_length] using hn
      simpa using h n hn'
    · exact h
  case minus =>
    simp only [navKey]
    split_ifs with h1
    · intro n hn
      have hn' : screenLen m = some n := by
        unfold screenLen at hn ⊢
        simpa [modifyAt_length] using hn
      simpa using h n hn'
    · exact h
  case right =>
    simp only [navKey]
    split_ifs with h1
    · intro n hn
      have hn' : screenLen m = some n := by
        unfold screenLen at hn ⊢
        simpa [modifyAt_length] using hn
      simpa using h n hn'
    · exact h
  case plus =>
    simp only [navKey]
    split_ifs with h1
    · intro n hn
      have hn' : screenLen m = some n := by
        unfold screenLen at hn ⊢
        simpa [modifyAt_length] using hn
      simpa using h n hn'
    · exact h
  case space =>
    simp only [navKey]
    split_ifs with h1
    · intro n hn
      have hn' : screenLen m = some n := by
        unfold screenLen at hn ⊢
        simpa [modifyAt_length] using hn
      simpa using h n hn'
    · exact h
  case d =>
    simp only [navKey]
    split_ifs <;>
      first
        | exact h
        | (intro n hn
           have hcond : m.state = SessionState.food ∧ m.foodItems ≠ [] := by
             assumption
           have hh := h m.foodItems.length (by unfold screenLen; rw [hcond.1])
           simp_all [screenLen] <;> omega)
        | (intro n hn
           have hcond : m.state = SessionState.subs ∧ m.subItems ≠ [] := by
             assumption
           have hh := h m.subItems.length (by unfold screenLen; rw [hcond.1])
           simp_all [screenLen] <;> omega)

end LifeTui

namespace LifeTui

theorem CursorOK_step (m : Model) (msg : Msg) (hf : msg.isFetch = false)
    (h : CursorOK m) : CursorOK (update m msg).1 := by
  cases msg with
  | dataFetched cats => simp [Msg.isFetch] at hf
  | syncSuccess =>
    simp only [update]
    split_ifs <;> exact h
  | recipeGenerated t => exact h
  | buyComplete => exact CursorOK_of_zero _ rfl
  | canvasScraped items => exact CursorOK_of_zero _ rfl
  | err e =>
    simp only [update]
    split_ifs <;> exact h
  | key kk =>
    simp only [update, updateKey]
    split_ifs with h1 h2 h3
    · exact h
    · exact h
    · exact CursorOK_formKey _ _ h3
    · exact CursorOK_navKey _ _ h

theorem CursorOK_runMsgs (m : Model) (msgs : List Msg)
    (hf : msgs.all (fun x => !x.isFetch) = true) (h : CursorOK m) :
    CursorOK (runMsgs m msgs) := by
  induction msgs generalizing m with
  | nil => exact h
  | cons msg rest ih =>
    simp only [List.all_cons, Bool.and_eq_true, Bool.not_eq_true'] at hf
    show CursorOK (runMsgs (update m msg).1 rest)
    exact ih _ (by simpa using hf.2) (CursorOK_step m msg hf.1 h)

/-- A fetch result delivering two food items. -/
def fetchTwoFoods : Msg :=
  .dataFetched [⟨"c1", "u", "Food", .food [⟨"A", 2, 5, 0, 0⟩, ⟨"B", 3, 1, 0, 0⟩]⟩]

/-- A fetch result delivering an empty food collection. -/
def fetchEmptyFood : Msg := .dataFetched [⟨"c1", "u", "Food", .food []⟩]

/-- C2 counterexample: after fetching two food items, entering the food
list and moving the cursor down, a second fetch result that empties the
food collection leaves the session on the food screen with cursor 1 over
an empty collection, violating the invariant. -/
theorem c2_cursor_invariant_counterexample :
    cursorOKb (runMsgs (initialModel "u")
      [fetchTwoFoods, .key .enter, .key .down, fetchEmptyFood]) = false ∧
    (runMsgs (initialModel "u")
      [fetchTwoFoods, .key .enter, .key .down, fetchEmptyFood]).state =
        SessionState.food ∧
    (runMsgs (initialModel "u")
      [fetchTwoFoods, .key .enter, .key .down, fetchEmptyFood]).cursor = 1 ∧
    (runMsgs (initialModel "u")
      [fetchTwoFoods, .key .enter, .key .down, fetchEmptyFood]).foodItems = [] := by
  decide

/-- C2 amended: from the initial session, the cursor invariant (cursor in
bounds of the active collection, 0 when it is empty) holds after any
sequence of key events and async results that contains no data-fetch
result; in particular it holds for all sequences of up/down events.  A
data-fetch result can replace the active collection with a shorter one
and thereby break the invariant. -/
theorem c2_cursor_invariant_amended (token : String) (msgs : List Msg)
    (hf : msgs.all (fun x => !x.isFetch) = true) :
    cursorOKb (runMsgs (initialModel token) msgs) = true := by
  rw [cursorOK_iff]
  exact CursorOK_runMsgs _ _ hf (CursorOK_of_zero _ rfl)

/-- C2 amended witness on a concrete up/down key trace. -/
theorem c2_cursor_invariant_amended_witness :
    cursorOKb (runMsgs (initialModel "u")
      [.key .enter, .key .down, .key .down, .key .up]) = true :=
  c2_cursor_invariant_amended "u" _ (by decide)

end LifeTui
